import Mathlib

/-
Shallow embedding of the school-registration backend (Express + sqlite3).
Tables are modelled as Lean lists of rows; each HTTP handler becomes a pure
function from a database state (plus the request) to a new state and a
response.  The third-party validator predicates isMobilePhone / isEmail are
external library code, so they are taken as parameters (phoneOk / emailOk);
every in-repository check (lengths, enums, ranges) is translated exactly.
-/

namespace MBU

/-- Row of the `students` table (schema in config/database createTables). -/
structure StudentRow where
  id : Nat
  student_name : String
  student_age : Int
  parent_name : String
  phone : String
  email : Option String
  sectionName : String
  payment_plan : String
  comments : Option String
  registration_date : Nat
  status : String
  payment_status : String
  created_at : Nat
  updated_at : Nat
deriving Repr, DecidableEq

/-- Row of the `sections` table.  `name` carries a UNIQUE constraint. -/
structure SectionRow where
  id : Nat
  name : String
  description : Option String
  capacity : Nat
  current_enrollment : Nat
  fee_termly : Option Nat
  fee_annual : Option Nat
  age_min : Option Nat
  age_max : Option Nat
  is_active : Bool
deriving Repr, DecidableEq

/-- Row of the `contact_messages` table. -/
structure ContactMessage where
  id : Nat
  name : String
  email : String
  phone : Option String
  subject : String
  message : String
  status : String
  created_at : Nat
  updated_at : Nat
deriving Repr, DecidableEq

/-- The persistent store: the tables the registration and contact routes
touch, plus the AUTOINCREMENT counters for row ids. -/
structure DBState where
  students : List StudentRow
  sections : List SectionRow
  contact_messages : List ContactMessage
  next_student_id : Nat
  next_section_id : Nat
deriving Repr, DecidableEq

/-- Body of POST /api/registration (field names as in the route). -/
structure RegistrationRequest where
  parentName : String
  phone : String
  email : Option String
  studentName : String
  studentAge : Int
  sectionName : String
  paymentPlan : String
  comments : Option String
deriving Repr, DecidableEq

/-- The fixed section enumeration of the `registrationValidation` rules
(`body('section').isIn([...])`). -/
def sectionEnum : List String :=
  ["Nursery", "Primary", "Islamiyya", "Tahfiz", "Higher Islamic", "Mosque/Majlis"]

/-- The payment-plan enumeration of the validation rules. -/
def paymentPlanEnum : List String := ["Termly Plan", "Annual Plan"]

/-- isLength with both bounds, counting characters as the validator does. -/
def lengthBetween (lo hi : Nat) (s : String) : Bool :=
  lo ≤ s.length && s.length ≤ hi

/-- JavaScript String.prototype.trim: drop leading and trailing whitespace. -/
def jsTrim (s : String) : String :=
  String.mk (((s.data.dropWhile Char.isWhitespace).reverse.dropWhile
    Char.isWhitespace).reverse)

/-- All field-validation failures of `registrationValidation`, collected in
rule order (express-validator does not short-circuit across fields).  The
external syntax predicates isMobilePhone / isEmail are passed in. -/
def registrationErrors (phoneOk emailOk : String → Bool) (r : RegistrationRequest) :
    List String :=
  (if lengthBetween 2 100 (jsTrim r.parentName) then [] else
    ["Parent name must be between 2-100 characters"]) ++
  (if phoneOk r.phone then [] else ["Please provide a valid phone number"]) ++
  (match r.email with
    | none => []
    | some e => if emailOk e then [] else ["Please provide a valid email address"]) ++
  (if lengthBetween 2 100 (jsTrim r.studentName) then [] else
    ["Student name must be between 2-100 characters"]) ++
  (if 3 ≤ r.studentAge ∧ r.studentAge ≤ 30 then [] else
    ["Student age must be between 3-30 years"]) ++
  (if sectionEnum.contains r.sectionName then [] else ["Please select a valid section"]) ++
  (if paymentPlanEnum.contains r.paymentPlan then [] else
    ["Please select a valid payment plan"]) ++
  (match r.comments with
    | none => []
    | some c => if c.length ≤ 500 then [] else
        ["Comments must not exceed 500 characters"])

/-- The `.trim()` sanitizers of the validation chain mutate req.body, so the
handler sees the trimmed names. -/
def sanitize (r : RegistrationRequest) : RegistrationRequest :=
  { r with parentName := jsTrim r.parentName, studentName := jsTrim r.studentName }

/-- JavaScript String.prototype.padStart. -/
def padStart (w : Nat) (c : Char) (s : String) : String :=
  String.mk (List.replicate (w - s.length) c) ++ s

/-- The human-readable identifier: MBU + row id zero-padded to 6 digits. -/
def registrationId (id : Nat) : String :=
  "MBU" ++ padStart 6 '0' (toString id)

/-- Payload of the 201 response of the registration route. -/
structure RegistrationData where
  registrationId : String
  studentId : Nat
  sectionName : String
  paymentPlan : String
deriving Repr, DecidableEq

/-- Outcomes of the registration route, one per return site. -/
inductive RegResult where
  | validationFailed (errors : List String)
  | conflict
  | invalidSection
  | capacityFull
  | serverError
  | created (data : RegistrationData)
deriving Repr, DecidableEq

/-- HTTP status code attached to each outcome. -/
def RegResult.httpStatus : RegResult → Nat
  | .validationFailed _ => 400
  | .conflict => 409
  | .invalidSection => 400
  | .capacityFull => 400
  | .serverError => 500
  | .created _ => 201

/-- SELECT id FROM students WHERE student_name = ? AND parent_name = ? AND phone = ?. -/
def findDuplicate (students : List StudentRow) (sn pn ph : String) : Option StudentRow :=
  students.find? (fun st => st.student_name == sn && st.parent_name == pn && st.phone == ph)

/-- SELECT * FROM sections WHERE name = ? AND is_active = 1. -/
def findActiveSection (sections : List SectionRow) (n : String) : Option SectionRow :=
  sections.find? (fun sec => sec.name == n && sec.is_active)

/-- UPDATE sections SET current_enrollment = current_enrollment + 1 WHERE name = ?. -/
def incrementEnrollment (sections : List SectionRow) (n : String) : List SectionRow :=
  sections.map (fun sec =>
    if sec.name == n then { sec with current_enrollment := sec.current_enrollment + 1 }
    else sec)

/-- The row the INSERT INTO students statement writes; status and
payment_status come from the column defaults. -/
def newStudentRow (id now : Nat) (v : RegistrationRequest) : StudentRow :=
  { id := id, student_name := v.studentName, student_age := v.studentAge,
    parent_name := v.parentName, phone := v.phone, email := v.email,
    sectionName := v.sectionName, payment_plan := v.paymentPlan,
    comments := v.comments, registration_date := now,
    status := "pending", payment_status := "unpaid",
    created_at := now, updated_at := now }

/-- INSERT INTO students ...; returns the new state and `this.lastID`. -/
def insertStudent (s : DBState) (now : Nat) (v : RegistrationRequest) : DBState × Nat :=
  ({ s with students := s.students ++ [newStudentRow s.next_student_id now v],
            next_student_id := s.next_student_id + 1 },
   s.next_student_id)

/-- An outbound email, reduced to the observables the claims talk about. -/
structure EmailMsg where
  recipient : String
  subject : String
deriving Repr, DecidableEq

/-- Fault injection for the two db.run calls of the success path and for the
Notifier; a failing db.run rejects its promise, a failing sendEmail throws. -/
structure Faults where
  insertFails : Bool
  updateFails : Bool
  emailFails : Bool
deriving Repr, DecidableEq

/-- No injected faults: every store statement and the Notifier succeed. -/
def noFaults : Faults := ⟨false, false, false⟩

/-- Step 8 of the route: confirmation email, attempted only when an address
was supplied; a Notifier failure is caught and logged, so no message leaves. -/
def confirmationEmail (emailFails : Bool) (v : RegistrationRequest) : List EmailMsg :=
  match v.email with
  | some e =>
      if emailFails then []
      else [{ recipient := e,
              subject := "Registration Confirmation - Musab Bin Umair Memorial School" }]
  | none => []

/-- Steps 2-9 of the route, after validation, on the sanitized body `v`:
duplicate check, active-section lookup, capacity check, row insert, counter
update, best-effort email, response.  A rejected db.run propagates to the
outer catch which answers 500, leaving whatever had already been written. -/
def submitAfterValidation (f : Faults) (now : Nat) (s : DBState)
    (v : RegistrationRequest) : DBState × RegResult × List EmailMsg :=
  match findDuplicate s.students v.studentName v.parentName v.phone with
  | some _ => (s, .conflict, [])
  | none =>
    match findActiveSection s.sections v.sectionName with
    | none => (s, .invalidSection, [])
    | some sec =>
      if sec.current_enrollment ≥ sec.capacity then (s, .capacityFull, [])
      else if f.insertFails then (s, .serverError, [])
      else
        let p := insertStudent s now v
        if f.updateFails then (p.1, .serverError, [])
        else
          ({ p.1 with sections := incrementEnrollment p.1.sections v.sectionName },
           .created { registrationId := registrationId p.2, studentId := p.2,
                      sectionName := v.sectionName, paymentPlan := v.paymentPlan },
           confirmationEmail f.emailFails v)

/-- POST /api/registration: validate, then run the workflow on the sanitized
body. -/
def submitRegistration (phoneOk emailOk : String → Bool) (f : Faults) (now : Nat)
    (s : DBState) (r : RegistrationRequest) : DBState × RegResult × List EmailMsg :=
  if (registrationErrors phoneOk emailOk r).isEmpty then
    submitAfterValidation f now s (sanitize r)
  else (s, .validationFailed (registrationErrors phoneOk emailOk r), [])

/-- Total enrollment recorded across the section rows carrying a name. -/
def sectionEnrollment (sections : List SectionRow) (n : String) : Nat :=
  ((sections.filter (fun sec => sec.name == n)).map
    (fun sec => sec.current_enrollment)).sum

/-- One entry of the fixed catalog that insertDefaultSections seeds. -/
structure SectionSeed where
  name : String
  description : String
  capacity : Nat
  fee_termly : Nat
  fee_annual : Nat
  age_min : Nat
  age_max : Nat
deriving Repr, DecidableEq

/-- The six defaults of insertDefaultSections, in source order. -/
def defaultSectionSeeds : List SectionSeed :=
  [⟨"Nursery", "Early childhood Islamic education for ages 3-5", 30, 12000, 32000, 3, 5⟩,
   ⟨"Primary School", "Primary education with Islamic values integration", 40, 15000, 40000, 6, 12⟩,
   ⟨"Islamiyya", "Foundational Islamic studies program", 50, 10000, 28000, 7, 16⟩,
   ⟨"Tahfiz", "Quran memorization program", 25, 18000, 48000, 8, 18⟩,
   ⟨"Higher Islamic", "Advanced Islamic studies for older students", 35, 20000, 55000, 16, 25⟩,
   ⟨"Mosque/Majlis", "Community programs and adult education", 100, 5000, 15000, 18, 100⟩]

/-- Whether some section row already carries the name (the UNIQUE key). -/
def hasSectionNamed (sections : List SectionRow) (n : String) : Bool :=
  sections.any (fun sec => sec.name == n)

/-- The row a seed INSERT writes; current_enrollment and is_active come from
the column defaults (0 and 1). -/
def seedRow (id : Nat) (d : SectionSeed) : SectionRow :=
  { id := id, name := d.name, description := some d.description,
    capacity := d.capacity, current_enrollment := 0,
    fee_termly := some d.fee_termly, fee_annual := some d.fee_annual,
    age_min := some d.age_min, age_max := some d.age_max, is_active := true }

/-- INSERT OR IGNORE INTO sections ...: a row whose name already exists is
left untouched, otherwise the seed row is appended. -/
def insertOrIgnoreSection (s : DBState) (d : SectionSeed) : DBState :=
  if hasSectionNamed s.sections d.name then s
  else { s with sections := s.sections ++ [seedRow s.next_section_id d],
                next_section_id := s.next_section_id + 1 }

/-- insertDefaultSections of config/database: one INSERT OR IGNORE per seed. -/
def insertDefaultSections (s : DBState) : DBState :=
  defaultSectionSeeds.foldl insertOrIgnoreSection s

/-- A freshly created database before seeding (sqlite row ids start at 1). -/
def emptyDB : DBState :=
  { students := [], sections := [], contact_messages := [],
    next_student_id := 1, next_section_id := 1 }

/-- State right after first startup: tables created and defaults seeded. -/
def seededDB : DBState := insertDefaultSections emptyDB

/-- Stand-in for the external syntax validators on inputs they accept. -/
def acceptAll : String → Bool := fun _ => true

/-- The example submission of the spec (section Tahfiz, Annual Plan). -/
def sampleReq : RegistrationRequest :=
  { parentName := "Amina Yusuf", phone := "+2348012345678",
    email := some "amina@example.com", studentName := "Fatima Yusuf",
    studentAge := 7, sectionName := "Tahfiz", paymentPlan := "Annual Plan",
    comments := none }

/-- Outcome of GET /api/contact/:id. -/
inductive ContactGetResult where
  | notFound
  | ok (msg : ContactMessage)
deriving Repr, DecidableEq

/-- GET /api/contact/:id: fetch the message; when it is unread, UPDATE its
status to read and its updated_at to now, and hand back the fetched object
with only its status field overwritten (as the route mutates the JS object). -/
def getContactMessage (s : DBState) (now : Nat) (idv : Nat) :
    DBState × ContactGetResult :=
  match s.contact_messages.find? (fun m => m.id == idv) with
  | none => (s, .notFound)
  | some m =>
    if m.status == "unread" then
      ({ s with contact_messages := s.contact_messages.map (fun m2 =>
          if m2.id == idv then { m2 with status := "read", updated_at := now }
          else m2) },
       .ok { m with status := "read" })
    else (s, .ok m)

/-- One equality condition appended to a WHERE clause of the listing route. -/
inductive Cond where
  | statusEq (v : String)
  | sectionEq (v : String)
deriving Repr, DecidableEq

/-- Semantics of one condition on a students row. -/
def evalCond : Cond → StudentRow → Bool
  | .statusEq v, st => st.status == v
  | .sectionEq v, st => st.sectionName == v

/-- Semantics of a conjunction of conditions (WHERE 1=1 AND ...). -/
def evalConds (cs : List Cond) (st : StudentRow) : Bool :=
  cs.all (fun c => evalCond c st)

/-- The clause list the route builds from the optional query filters; the
route assembles it twice, once for the page query and once for the count. -/
def buildConds (status sectionq : Option String) : List Cond :=
  (match status with | some v => [Cond.statusEq v] | none => []) ++
  (match sectionq with | some v => [Cond.sectionEq v] | none => [])

/-- Stable insertion keeping larger created_at first. -/
def insertDesc (x : StudentRow) : List StudentRow → List StudentRow
  | [] => [x]
  | y :: ys => if y.created_at < x.created_at then x :: y :: ys else y :: insertDesc x ys

/-- ORDER BY created_at DESC as a stable sort. -/
def orderByCreatedAtDesc (l : List StudentRow) : List StudentRow :=
  l.foldr insertDesc []

/-- Pagination metadata of the listing response. -/
structure Pagination where
  page : Nat
  limit : Nat
  total : Nat
  pages : Nat
deriving Repr, DecidableEq

/-- GET /api/registration: filtered newest-first page of students plus
pagination whose total comes from a second, separately built count query;
pages is Math.ceil(total / limit). -/
def listRegistrations (s : DBState) (status sectionq : Option String)
    (page limit : Nat) : List StudentRow × Pagination :=
  let offset := (page - 1) * limit
  let rows :=
    ((orderByCreatedAtDesc (s.students.filter
        (evalConds (buildConds status sectionq)))).drop offset).take limit
  let total := (s.students.filter (evalConds (buildConds status sectionq))).length
  (rows, { page := page, limit := limit, total := total,
           pages := (total + limit - 1) / limit })

/-- Spec-side description of the listing filter: zero or more equality
filters on status and section.  Stated from the spec's words, to be related
to the condition lists the route builds. -/
def matchesListFilters (status sectionq : Option String) (st : StudentRow) : Bool :=
  (status.all fun v => st.status == v) && (sectionq.all fun v => st.sectionName == v)

/-- One in-flight registration request of the event-loop model: pc names the
next awaited store operation (0 dup-check, 1 section fetch and capacity
check, 2 row insert, 3 counter update), resp is set once the handler has
answered. -/
structure Thread where
  req : RegistrationRequest
  pc : Nat
  newId : Option Nat
  resp : Option RegResult
deriving Repr, DecidableEq

/-- A fresh handler invocation for a request. -/
def Thread.start (r : RegistrationRequest) : Thread :=
  { req := r, pc := 0, newId := none, resp := none }

/-- One atomic store access of a request plus the synchronous code around
it, exactly the code between two awaits of the route: sqlite serializes the
individual statements, but between them other requests may run. -/
def stepThread (phoneOk emailOk : String → Bool) (now : Nat) (s : DBState)
    (t : Thread) : DBState × Thread :=
  if t.resp.isSome then (s, t) else
  match t.pc with
  | 0 =>
    if (registrationErrors phoneOk emailOk t.req).isEmpty then
      match findDuplicate s.students (sanitize t.req).studentName
          (sanitize t.req).parentName (sanitize t.req).phone with
      | some _ => (s, { t with resp := some .conflict })
      | none => (s, { t with pc := 1 })
    else (s, { t with resp := some (.validationFailed
          (registrationErrors phoneOk emailOk t.req)) })
  | 1 =>
    match findActiveSection s.sections (sanitize t.req).sectionName with
    | none => (s, { t with resp := some .invalidSection })
    | some sec =>
      if sec.current_enrollment ≥ sec.capacity then
        (s, { t with resp := some .capacityFull })
      else (s, { t with pc := 2 })
  | 2 =>
    let p := insertStudent s now (sanitize t.req)
    (p.1, { t with pc := 3, newId := some p.2 })
  | 3 =>
    ({ s with sections := incrementEnrollment s.sections (sanitize t.req).sectionName },
     { t with resp := some (.created
        { registrationId := registrationId (t.newId.getD 0),
          studentId := t.newId.getD 0,
          sectionName := (sanitize t.req).sectionName,
          paymentPlan := (sanitize t.req).paymentPlan }) })
  | _ => (s, t)

/-- Run an interleaving: each schedule entry names the thread that performs
its next atomic store access. -/
def runSchedule (phoneOk emailOk : String → Bool) (now : Nat) :
    DBState → List Thread → List Nat → DBState × List Thread
  | s, ts, [] => (s, ts)
  | s, ts, i :: rest =>
    match ts[i]? with
    | none => runSchedule phoneOk emailOk now s ts rest
    | some t =>
      let p := stepThread phoneOk emailOk now s t
      runSchedule phoneOk emailOk now p.1 (ts.set i p.2) rest

/-! Helper lemmas shared by several results. -/

/-- A record update that only touches current_enrollment keeps the name. -/
theorem bump_name (sec : SectionRow) :
    ({ sec with current_enrollment := sec.current_enrollment + 1 } : SectionRow).name
      = sec.name := rfl

/-- Enrollment sum over a cons, split on whether the head carries the name. -/
theorem sectionEnrollment_cons (y : SectionRow) (l : List SectionRow) (n : String) :
    sectionEnrollment (y :: l) n =
      (if y.name == n then y.current_enrollment else 0) + sectionEnrollment l n := by
  by_cases h : (y.name == n) = true
  · simp [sectionEnrollment, List.filter_cons, h]
  · simp [sectionEnrollment, List.filter_cons, h]

/-- The UPDATE adds one per section row carrying the name, so the recorded
enrollment for that name grows by the number of such rows. -/
theorem sectionEnrollment_increment (l : List SectionRow) (n : String) :
    sectionEnrollment (incrementEnrollment l n) n =
      sectionEnrollment l n + (l.filter (fun x => x.name == n)).length := by
  induction l with
  | nil => rfl
  | cons x xs ih =>
    have hinc : incrementEnrollment (x :: xs) n =
        (if x.name == n then
          { x with current_enrollment := x.current_enrollment + 1 } else x)
          :: incrementEnrollment xs n := rfl
    rw [hinc, List.filter_cons]
    by_cases h : (x.name == n) = true
    · rw [if_pos h]
      simp [sectionEnrollment_cons, h]
      omega
    · rw [if_neg h]
      simp [sectionEnrollment_cons, h]
      omega

/-- Rows whose name differs are untouched by the UPDATE. -/
theorem incrementEnrollment_other (l : List SectionRow) (n : String) (sec : SectionRow)
    (hmem : sec ∈ l) (hne : (sec.name == n) = false) :
    sec ∈ incrementEnrollment l n := by
  have h := List.mem_map_of_mem (fun sec : SectionRow =>
    if sec.name == n then { sec with current_enrollment := sec.current_enrollment + 1 }
    else sec) hmem
  simpa [incrementEnrollment, hne] using h

/-- Unfolding of the whole success path: with validation clean, no
duplicate, an active section with a free slot, and no injected store fault,
the route appends exactly the new row, bumps the counter and answers 201. -/
theorem submit_success_eq (phoneOk emailOk : String → Bool) (f : Faults)
    (hins : f.insertFails = false) (hupd : f.updateFails = false)
    (now : Nat) (s : DBState) (r : RegistrationRequest) (sec : SectionRow)
    (hval : registrationErrors phoneOk emailOk r = [])
    (hdup : findDuplicate s.students (sanitize r).studentName
        (sanitize r).parentName (sanitize r).phone = none)
    (hsec : findActiveSection s.sections (sanitize r).sectionName = some sec)
    (hcap : sec.current_enrollment < sec.capacity) :
    submitRegistration phoneOk emailOk f now s r =
      ({ s with
          students := s.students ++ [newStudentRow s.next_student_id now (sanitize r)],
          sections := incrementEnrollment s.sections (sanitize r).sectionName,
          next_student_id := s.next_student_id + 1 },
       .created { registrationId := registrationId s.next_student_id,
                  studentId := s.next_student_id,
                  sectionName := (sanitize r).sectionName,
                  paymentPlan := (sanitize r).paymentPlan },
       confirmationEmail f.emailFails (sanitize r)) := by
  unfold submitRegistration
  rw [hval]
  simp only [List.isEmpty_nil, if_true]
  unfold submitAfterValidation
  simp only [hdup, hsec]
  have hge : ¬ sec.current_enrollment ≥ sec.capacity := by omega
  rw [if_neg hge]
  simp only [hins, hupd]
  rfl

/-- C1: a submission that passes field validation, is no duplicate, names an
existing active section with current_enrollment < capacity makes the route
insert exactly one students row with status pending and payment_status
unpaid, raise that section's enrollment by exactly 1, and answer 201 with
registrationId = "MBU" + the new row id zero-padded to 6 digits, the row id,
the section and the payment plan. -/
theorem submit_valid_creates_row_C1 (phoneOk emailOk : String → Bool)
    (now : Nat) (s : DBState) (r : RegistrationRequest) (sec : SectionRow)
    (hval : registrationErrors phoneOk emailOk r = [])
    (hdup : findDuplicate s.students (sanitize r).studentName
        (sanitize r).parentName (sanitize r).phone = none)
    (hsec : findActiveSection s.sections (sanitize r).sectionName = some sec)
    (hcap : sec.current_enrollment < sec.capacity)
    (huniq : (s.sections.filter
        (fun x => x.name == (sanitize r).sectionName)).length = 1) :
    (∃ row : StudentRow,
        (submitRegistration phoneOk emailOk noFaults now s r).1.students
            = s.students ++ [row]
        ∧ row.status = "pending" ∧ row.payment_status = "unpaid"
        ∧ row.id = s.next_student_id)
    ∧ sectionEnrollment
          (submitRegistration phoneOk emailOk noFaults now s r).1.sections
          (sanitize r).sectionName
        = sectionEnrollment s.sections (sanitize r).sectionName + 1
    ∧ (submitRegistration phoneOk emailOk noFaults now s r).2.1
        = .created { registrationId := "MBU" ++ padStart 6 '0' (toString s.next_student_id),
                     studentId := s.next_student_id,
                     sectionName := (sanitize r).sectionName,
                     paymentPlan := (sanitize r).paymentPlan }
    ∧ RegResult.httpStatus (submitRegistration phoneOk emailOk noFaults now s r).2.1
        = 201 := by
  rw [submit_success_eq phoneOk emailOk noFaults rfl rfl now s r sec hval hdup hsec hcap]
  refine ⟨⟨newStudentRow s.next_student_id now (sanitize r), rfl, rfl, rfl, rfl⟩, ?_, rfl, rfl⟩
  rw [sectionEnrollment_increment, huniq]

/-- The Tahfiz row as seeded at first startup (fourth seed, id 4). -/
def tahfizRow : SectionRow :=
  { id := 4, name := "Tahfiz", description := some "Quran memorization program",
    capacity := 25, current_enrollment := 0, fee_termly := some 18000,
    fee_annual := some 48000, age_min := some 8, age_max := some 18,
    is_active := true }

/-- Witness for C1: the spec's own example submission against the freshly
seeded store. -/
theorem submit_valid_creates_row_C1_witness :
    (registrationErrors acceptAll acceptAll sampleReq = []
      ∧ findDuplicate seededDB.students (sanitize sampleReq).studentName
          (sanitize sampleReq).parentName (sanitize sampleReq).phone = none
      ∧ findActiveSection seededDB.sections (sanitize sampleReq).sectionName
          = some tahfizRow
      ∧ tahfizRow.current_enrollment < tahfizRow.capacity
      ∧ (seededDB.sections.filter
          (fun x => x.name == (sanitize sampleReq).sectionName)).length = 1)
    ∧ ((∃ row : StudentRow,
          (submitRegistration acceptAll acceptAll noFaults 0 seededDB sampleReq).1.students
              = seededDB.students ++ [row]
          ∧ row.status = "pending" ∧ row.payment_status = "unpaid"
          ∧ row.id = seededDB.next_student_id)
      ∧ sectionEnrollment
            (submitRegistration acceptAll acceptAll noFaults 0 seededDB sampleReq).1.sections
            (sanitize sampleReq).sectionName
          = sectionEnrollment seededDB.sections (sanitize sampleReq).sectionName + 1
      ∧ (submitRegistration acceptAll acceptAll noFaults 0 seededDB sampleReq).2.1
          = .created { registrationId := "MBU" ++ padStart 6 '0' (toString seededDB.next_student_id),
                       studentId := seededDB.next_student_id,
                       sectionName := (sanitize sampleReq).sectionName,
                       paymentPlan := (sanitize sampleReq).paymentPlan }
      ∧ RegResult.httpStatus
            (submitRegistration acceptAll acceptAll noFaults 0 seededDB sampleReq).2.1
          = 201) :=
  ⟨⟨by decide, by decide, by decide, by decide, by decide⟩,
   submit_valid_creates_row_C1 acceptAll acceptAll 0 seededDB sampleReq tahfizRow
     (by decide) (by decide) (by decide) (by decide) (by decide)⟩

/-- C2: the row insert and the counter increment are two separate db.run
statements with no surrounding transaction, so a store fault on the UPDATE
leaves the new row in place while the section counter is not bumped: after
the partial failure, one more students row is observable than before while
Tahfiz enrollment is unchanged, and the request answers 500.  The counter
has drifted from the true row count, contrary to the stated atomicity. -/
theorem submit_partial_failure_drift_C2 :
    (submitRegistration acceptAll acceptAll ⟨false, true, false⟩ 0 seededDB sampleReq).2.1
        = RegResult.serverError
    ∧ (submitRegistration acceptAll acceptAll ⟨false, true, false⟩ 0 seededDB sampleReq).1.students.length
        = seededDB.students.length + 1
    ∧ sectionEnrollment
          (submitRegistration acceptAll acceptAll ⟨false, true, false⟩ 0 seededDB sampleReq).1.sections
          "Tahfiz"
        = sectionEnrollment seededDB.sections "Tahfiz" := by decide

/-- C3: a submission reaching the capacity check while the section is full
(current_enrollment ≥ capacity) is rejected with Capacity-Exceeded (400),
the state is returned untouched, and repeating the rejected call, under any
injected faults and any clock, rejects identically from the same state. -/
theorem submit_capacity_full_rejected_C3 (phoneOk emailOk : String → Bool)
    (s : DBState) (r : RegistrationRequest) (sec : SectionRow)
    (hval : registrationErrors phoneOk emailOk r = [])
    (hdup : findDuplicate s.students (sanitize r).studentName
        (sanitize r).parentName (sanitize r).phone = none)
    (hsec : findActiveSection s.sections (sanitize r).sectionName = some sec)
    (hcap : sec.capacity ≤ sec.current_enrollment) :
    ∀ (f g : Faults) (now now2 : Nat),
      submitRegistration phoneOk emailOk f now s r = (s, .capacityFull, [])
      ∧ submitRegistration phoneOk emailOk g now2
          ((submitRegistration phoneOk emailOk f now s r).1) r
          = (s, .capacityFull, [])
      ∧ RegResult.httpStatus RegResult.capacityFull = 400 := by
  have h1 : ∀ (f : Faults) (now : Nat),
      submitRegistration phoneOk emailOk f now s r = (s, .capacityFull, []) := by
    intro f now
    unfold submitRegistration
    rw [hval]
    simp only [List.isEmpty_nil, if_true]
    unfold submitAfterValidation
    simp only [hdup, hsec]
    rw [if_pos hcap]
  intro f g now now2
  refine ⟨h1 f now, ?_, rfl⟩
  rw [h1 f now]
  exact h1 g now2

/-- Witness for C3: a Tahfiz row filled to capacity. -/
def fullTahfizDB : DBState :=
  { students := [], contact_messages := [],
    sections := [{ tahfizRow with current_enrollment := 25 }],
    next_student_id := 1, next_section_id := 2 }

/-- Witness for C3: submitting against the full section is rejected and the
rejection repeats identically. -/
theorem submit_capacity_full_rejected_C3_witness :
    (registrationErrors acceptAll acceptAll sampleReq = []
      ∧ findDuplicate fullTahfizDB.students (sanitize sampleReq).studentName
          (sanitize sampleReq).parentName (sanitize sampleReq).phone = none
      ∧ findActiveSection fullTahfizDB.sections (sanitize sampleReq).sectionName
          = some { tahfizRow with current_enrollment := 25 }
      ∧ ({ tahfizRow with current_enrollment := 25 } : SectionRow).capacity
          ≤ ({ tahfizRow with current_enrollment := 25 } : SectionRow).current_enrollment)
    ∧ (submitRegistration acceptAll acceptAll noFaults 0 fullTahfizDB sampleReq
          = (fullTahfizDB, .capacityFull, [])
      ∧ submitRegistration acceptAll acceptAll noFaults 1
          ((submitRegistration acceptAll acceptAll noFaults 0 fullTahfizDB sampleReq).1)
          sampleReq
          = (fullTahfizDB, .capacityFull, [])
      ∧ RegResult.httpStatus RegResult.capacityFull = 400) :=
  ⟨⟨by decide, by decide, by decide, by decide⟩,
   submit_capacity_full_rejected_C3 acceptAll acceptAll fullTahfizDB sampleReq
     { tahfizRow with current_enrollment := 25 }
     (by decide) (by decide) (by decide) (by decide) noFaults noFaults 0 1⟩

/-- C4: after a first submission goes through the whole success path, the
identical resubmission is stopped by the duplicate check: it answers
Conflict (409) and performs no write at all — same state, no email, none of
the later workflow steps. -/
theorem submit_duplicate_conflict_C4 (phoneOk emailOk : String → Bool)
    (now : Nat) (s : DBState) (r : RegistrationRequest) (sec : SectionRow)
    (hval : registrationErrors phoneOk emailOk r = [])
    (hdup : findDuplicate s.students (sanitize r).studentName
        (sanitize r).parentName (sanitize r).phone = none)
    (hsec : findActiveSection s.sections (sanitize r).sectionName = some sec)
    (hcap : sec.current_enrollment < sec.capacity) :
    ∀ now2 : Nat,
      submitRegistration phoneOk emailOk noFaults now2
          ((submitRegistration phoneOk emailOk noFaults now s r).1) r
        = ((submitRegistration phoneOk emailOk noFaults now s r).1, .conflict, [])
      ∧ RegResult.httpStatus RegResult.conflict = 409 := by
  intro now2
  rw [submit_success_eq phoneOk emailOk noFaults rfl rfl now s r sec hval hdup hsec hcap]
  refine ⟨?_, rfl⟩
  unfold submitRegistration
  rw [hval]
  simp only [List.isEmpty_nil, if_true]
  unfold submitAfterValidation
  have hfind : findDuplicate
      (s.students ++ [newStudentRow s.next_student_id now (sanitize r)])
      (sanitize r).studentName (sanitize r).parentName (sanitize r).phone
      = some (newStudentRow s.next_student_id now (sanitize r)) := by
    unfold findDuplicate at hdup ⊢
    rw [List.find?_append, hdup]
    simp [newStudentRow]
  simp only [hfind]

/-- Witness for C4: the spec's example submitted twice against the freshly
seeded store; the repeat is answered 409 and changes nothing. -/
theorem submit_duplicate_conflict_C4_witness :
    (registrationErrors acceptAll acceptAll sampleReq = []
      ∧ findDuplicate seededDB.students (sanitize sampleReq).studentName
          (sanitize sampleReq).parentName (sanitize sampleReq).phone = none
      ∧ findActiveSection seededDB.sections (sanitize sampleReq).sectionName
          = some tahfizRow
      ∧ tahfizRow.current_enrollment < tahfizRow.capacity)
    ∧ (submitRegistration acceptAll acceptAll noFaults 1
          ((submitRegistration acceptAll acceptAll noFaults 0 seededDB sampleReq).1)
          sampleReq
        = ((submitRegistration acceptAll acceptAll noFaults 0 seededDB sampleReq).1,
           .conflict, [])
      ∧ RegResult.httpStatus RegResult.conflict = 409) :=
  ⟨⟨by decide, by decide, by decide, by decide⟩,
   submit_duplicate_conflict_C4 acceptAll acceptAll 0 seededDB sampleReq tahfizRow
     (by decide) (by decide) (by decide) (by decide) 1⟩

/-- C5: the section enumeration accepted by the validator is NOT the set of
names seeded at startup: the validator accepts "Primary" while the seed
creates "Primary School".  A submission for section "Primary" passes every
field-validation rule, all six seeded sections are active, and yet the
section-resolution step fails with Invalid-Section (400), leaving the state
untouched. -/
theorem validator_seed_name_mismatch_C5 :
    sectionEnum.contains "Primary" = true
    ∧ seededDB.sections.map SectionRow.name
        = ["Nursery", "Primary School", "Islamiyya", "Tahfiz", "Higher Islamic",
           "Mosque/Majlis"]
    ∧ hasSectionNamed seededDB.sections "Primary" = false
    ∧ seededDB.sections.all (fun sec => sec.is_active) = true
    ∧ registrationErrors acceptAll acceptAll
        { sampleReq with sectionName := "Primary" } = []
    ∧ submitRegistration acceptAll acceptAll noFaults 0 seededDB
        { sampleReq with sectionName := "Primary" }
        = (seededDB, RegResult.invalidSection, [])
    ∧ RegResult.httpStatus RegResult.invalidSection = 400 := by decide

/-- On the branch structure of the workflow, the Notifier fault flag can
change only the outbound-email component: the stored state and the response
are the same whatever emailFails is, as long as the two store-fault flags
agree. -/
theorem submitAfterValidation_email_indep (f g : Faults)
    (hins : f.insertFails = g.insertFails) (hupd : f.updateFails = g.updateFails)
    (now : Nat) (s : DBState) (v : RegistrationRequest) :
    (submitAfterValidation f now s v).1 = (submitAfterValidation g now s v).1
    ∧ (submitAfterValidation f now s v).2.1 = (submitAfterValidation g now s v).2.1 := by
  unfold submitAfterValidation
  rw [hins, hupd]
  repeat' split
  all_goals exact ⟨rfl, rfl⟩

/-- Lifting of the email-fault frame property over the validation gate. -/
theorem submitRegistration_email_indep (phoneOk emailOk : String → Bool)
    (f g : Faults)
    (hins : f.insertFails = g.insertFails) (hupd : f.updateFails = g.updateFails)
    (now : Nat) (s : DBState) (r : RegistrationRequest) :
    (submitRegistration phoneOk emailOk f now s r).1
        = (submitRegistration phoneOk emailOk g now s r).1
    ∧ (submitRegistration phoneOk emailOk f now s r).2.1
        = (submitRegistration phoneOk emailOk g now s r).2.1 := by
  unfold submitRegistration
  by_cases hv : (registrationErrors phoneOk emailOk r).isEmpty = true
  · rw [if_pos hv, if_pos hv]
    exact submitAfterValidation_email_indep f g hins hupd now s (sanitize r)
  · rw [if_neg hv, if_neg hv]
    exact ⟨rfl, rfl⟩

/-- C6: for a submission that runs the whole success path and supplied an
email address, a Notifier failure during the confirmation dispatch is caught
and swallowed: the persisted state and the 201 result are identical to the
fault-free run (only the outbound message is lost). -/
theorem notifier_failure_swallowed_C6 (phoneOk emailOk : String → Bool)
    (now : Nat) (s : DBState) (r : RegistrationRequest)
    (addr : String) (d : RegistrationData)
    (hmail : r.email = some addr)
    (hsucc : (submitRegistration phoneOk emailOk noFaults now s r).2.1
        = .created d) :
    (submitRegistration phoneOk emailOk ⟨false, false, true⟩ now s r).1
        = (submitRegistration phoneOk emailOk noFaults now s r).1
    ∧ (submitRegistration phoneOk emailOk ⟨false, false, true⟩ now s r).2.1
        = .created d
    ∧ RegResult.httpStatus
          (submitRegistration phoneOk emailOk ⟨false, false, true⟩ now s r).2.1
        = 201 := by
  have h := submitRegistration_email_indep phoneOk emailOk
    ⟨false, false, true⟩ noFaults rfl rfl now s r
  refine ⟨h.1, ?_, ?_⟩
  · rw [h.2, hsucc]
  · rw [h.2, hsucc]
    rfl

/-- Witness for C6: the example submission (which carries an email address)
with the Notifier forced to fail. -/
theorem notifier_failure_swallowed_C6_witness :
    (sampleReq.email = some "amina@example.com"
      ∧ (submitRegistration acceptAll acceptAll noFaults 0 seededDB sampleReq).2.1
          = .created { registrationId := "MBU000001", studentId := 1,
                       sectionName := "Tahfiz", paymentPlan := "Annual Plan" })
    ∧ ((submitRegistration acceptAll acceptAll ⟨false, false, true⟩ 0 seededDB sampleReq).1
          = (submitRegistration acceptAll acceptAll noFaults 0 seededDB sampleReq).1
      ∧ (submitRegistration acceptAll acceptAll ⟨false, false, true⟩ 0 seededDB sampleReq).2.1
          = .created { registrationId := "MBU000001", studentId := 1,
                       sectionName := "Tahfiz", paymentPlan := "Annual Plan" }
      ∧ RegResult.httpStatus
            (submitRegistration acceptAll acceptAll ⟨false, false, true⟩ 0 seededDB sampleReq).2.1
          = 201) :=
  ⟨⟨by decide, by decide⟩,
   notifier_failure_swallowed_C6 acceptAll acceptAll 0 seededDB sampleReq
     "amina@example.com"
     { registrationId := "MBU000001", studentId := 1,
       sectionName := "Tahfiz", paymentPlan := "Annual Plan" }
     (by decide) (by decide)⟩

/-- A Tahfiz section with exactly one remaining slot (24 of 25 taken). -/
def raceDB : DBState :=
  { students := [], contact_messages := [],
    sections := [{ tahfizRow with current_enrollment := 24 }],
    next_student_id := 1, next_section_id := 2 }

/-- A second, distinct valid submission for the same section. -/
def secondReq : RegistrationRequest :=
  { parentName := "Bashir Musa", phone := "+2348098765432", email := none,
    studentName := "Ahmad Musa", studentAge := 9, sectionName := "Tahfiz",
    paymentPlan := "Termly Plan", comments := none }

/-- C7: two concurrent submissions to a section with one remaining slot,
interleaved at the route's own await points with no transaction or lock
around the read-check-write sequence: both requests pass the capacity check
before either counter update runs, so both answer 201 and the final
enrollment is 26 against a capacity of 25 — the claim's exactly-K-succeed
and never-exceeds-capacity guarantees both fail on this schedule. -/
theorem concurrent_capacity_oversell_C7 :
    sectionEnrollment raceDB.sections "Tahfiz" = 24
    ∧ raceDB.sections.map SectionRow.capacity = [25]
    ∧ (runSchedule acceptAll acceptAll 0 raceDB
          [Thread.start sampleReq, Thread.start secondReq]
          [0, 1, 0, 1, 0, 1, 0, 1]).2.map
        (fun t => t.resp.map RegResult.httpStatus)
        = [some 201, some 201]
    ∧ sectionEnrollment
          (runSchedule acceptAll acceptAll 0 raceDB
            [Thread.start sampleReq, Thread.start secondReq]
            [0, 1, 0, 1, 0, 1, 0, 1]).1.sections "Tahfiz"
        = 26 := by decide

/-- The condition list the route assembles evaluates to the spec-side
equality-filter predicate on every row. -/
theorem evalConds_buildConds (status sectionq : Option String) (st : StudentRow) :
    evalConds (buildConds status sectionq) st = matchesListFilters status sectionq st := by
  cases status <;> cases sectionq <;>
    simp [buildConds, evalConds, evalCond, matchesListFilters]

/-- C8: for every store state and listing request, the returned rows are the
newest-first ordering of the rows matching the equality filters, cut at
offset (page-1)*limit and length limit; the reported total is the count
under the same filter predicate as the rows; and pages is the ceiling of
total/limit, characterized by total ≤ pages*limit < total + limit. -/
theorem listRegistrations_paginates_C8 (s : DBState)
    (status sectionq : Option String) (page limit : Nat) (hl : 1 ≤ limit) :
    (listRegistrations s status sectionq page limit).1
        = ((orderByCreatedAtDesc (s.students.filter
              (matchesListFilters status sectionq))).drop ((page - 1) * limit)).take limit
    ∧ (listRegistrations s status sectionq page limit).2.total
        = (s.students.filter (matchesListFilters status sectionq)).length
    ∧ (listRegistrations s status sectionq page limit).2.total
        ≤ (listRegistrations s status sectionq page limit).2.pages * limit
    ∧ (listRegistrations s status sectionq page limit).2.pages * limit
        < (listRegistrations s status sectionq page limit).2.total + limit
    ∧ (listRegistrations s status sectionq page limit).2.page = page
    ∧ (listRegistrations s status sectionq page limit).2.limit = limit := by
  have hfun : evalConds (buildConds status sectionq) = matchesListFilters status sectionq :=
    funext (evalConds_buildConds status sectionq)
  simp only [listRegistrations, hfun]
  refine ⟨trivial, trivial, ?_, ?_, trivial, trivial⟩ <;>
  · have hd := Nat.div_add_mod
      ((s.students.filter (matchesListFilters status sectionq)).length + limit - 1) limit
    have hm := Nat.mod_lt
      ((s.students.filter (matchesListFilters status sectionq)).length + limit - 1)
      (show 0 < limit from hl)
    rw [Nat.mul_comm] at hd
    generalize hq : ((s.students.filter (matchesListFilters status sectionq)).length
        + limit - 1) / limit = q at hd ⊢
    generalize hr : ((s.students.filter (matchesListFilters status sectionq)).length
        + limit - 1) % limit = r at hd hm
    generalize hqq : q * limit = m at hd ⊢
    omega

/-- Twenty-five pending registrations (created_at stamps 0..24). -/
def pendingStudents : List StudentRow :=
  (List.range 25).map (fun i =>
    { id := i + 1, student_name := "Student", student_age := 10,
      parent_name := "Parent", phone := "+2348000000000", email := none,
      sectionName := "Tahfiz", payment_plan := "Termly Plan", comments := none,
      registration_date := i, status := "pending", payment_status := "unpaid",
      created_at := i, updated_at := i })

/-- A store carrying exactly the 25 pending rows. -/
def listDB : DBState := { emptyDB with students := pendingStudents }

/-- Witness for C8: status=pending, page=2, limit=10 against 25 pending rows
returns 10 rows and pages = 3. -/
theorem listRegistrations_paginates_C8_witness :
    (1 ≤ 10
    ∧ ((listRegistrations listDB (some "pending") none 2 10).1
          = ((orderByCreatedAtDesc (listDB.students.filter
                (matchesListFilters (some "pending") none))).drop ((2 - 1) * 10)).take 10
      ∧ (listRegistrations listDB (some "pending") none 2 10).2.total
          = (listDB.students.filter (matchesListFilters (some "pending") none)).length
      ∧ (listRegistrations listDB (some "pending") none 2 10).2.total
          ≤ (listRegistrations listDB (some "pending") none 2 10).2.pages * 10
      ∧ (listRegistrations listDB (some "pending") none 2 10).2.pages * 10
          < (listRegistrations listDB (some "pending") none 2 10).2.total + 10
      ∧ (listRegistrations listDB (some "pending") none 2 10).2.page = 2
      ∧ (listRegistrations listDB (some "pending") none 2 10).2.limit = 10))
    ∧ (listRegistrations listDB (some "pending") none 2 10).1.length = 10
    ∧ (listRegistrations listDB (some "pending") none 2 10).2.pages = 3
    ∧ (listRegistrations listDB (some "pending") none 2 10).2.total = 25 :=
  ⟨⟨by decide,
    listRegistrations_paginates_C8 listDB (some "pending") none 2 10 (by decide)⟩,
   by decide, by decide, by decide⟩

/-- A seed INSERT never removes a name that is already present. -/
theorem hasSectionNamed_insertOrIgnore_mono (s : DBState) (d : SectionSeed)
    (n : String) (h : hasSectionNamed s.sections n = true) :
    hasSectionNamed (insertOrIgnoreSection s d).sections n = true := by
  unfold insertOrIgnoreSection
  by_cases hd : hasSectionNamed s.sections d.name = true
  · rw [if_pos hd]
    exact h
  · rw [if_neg hd]
    simp only [hasSectionNamed, List.any_append] at *
    rw [h]
    rfl

/-- After a seed INSERT the seed's name is present. -/
theorem hasSectionNamed_insertOrIgnore_self (s : DBState) (d : SectionSeed) :
    hasSectionNamed (insertOrIgnoreSection s d).sections d.name = true := by
  unfold insertOrIgnoreSection
  by_cases hd : hasSectionNamed s.sections d.name = true
  · rw [if_pos hd]
    exact hd
  · rw [if_neg hd]
    simp [hasSectionNamed, List.any_append, seedRow]

/-- Folding any seed list keeps every already-present name present. -/
theorem hasSectionNamed_seedAll_mono (ds : List SectionSeed) (s : DBState)
    (n : String) (h : hasSectionNamed s.sections n = true) :
    hasSectionNamed (ds.foldl insertOrIgnoreSection s).sections n = true := by
  induction ds generalizing s with
  | nil => exact h
  | cons d ds ih =>
    exact ih (insertOrIgnoreSection s d) (hasSectionNamed_insertOrIgnore_mono s d n h)

/-- Folding a seed list makes every seeded name present. -/
theorem hasSectionNamed_seedAll_self (ds : List SectionSeed) (s : DBState)
    (d : SectionSeed) (hmem : d ∈ ds) :
    hasSectionNamed (ds.foldl insertOrIgnoreSection s).sections d.name = true := by
  induction ds generalizing s with
  | nil => cases hmem
  | cons d0 ds ih =>
    rcases List.mem_cons.mp hmem with h0 | h0
    · subst h0
      exact hasSectionNamed_seedAll_mono ds (insertOrIgnoreSection s d) d.name
        (hasSectionNamed_insertOrIgnore_self s d)
    · exact ih (insertOrIgnoreSection s d0) h0

/-- Folding a seed list whose names are all present already is a no-op. -/
theorem seedAll_noop (ds : List SectionSeed) (s : DBState)
    (h : ∀ d ∈ ds, hasSectionNamed s.sections d.name = true) :
    ds.foldl insertOrIgnoreSection s = s := by
  induction ds generalizing s with
  | nil => rfl
  | cons d ds ih =>
    have h0 : insertOrIgnoreSection s d = s := by
      unfold insertOrIgnoreSection
      rw [if_pos (h d (List.mem_cons_self d ds))]
    rw [List.foldl_cons, h0]
    exact ih s (fun d2 h2 => h d2 (List.mem_cons_of_mem d h2))

/-- A seed INSERT does not change the set of rows carrying an
already-present name: re-seeding an existing name is ignored, and a fresh
name appends a row whose name is different. -/
theorem filter_insertOrIgnore (s : DBState) (d : SectionSeed) (n : String)
    (h : hasSectionNamed s.sections n = true) :
    (insertOrIgnoreSection s d).sections.filter (fun x => x.name == n)
      = s.sections.filter (fun x => x.name == n) := by
  unfold insertOrIgnoreSection
  by_cases hd : hasSectionNamed s.sections d.name = true
  · rw [if_pos hd]
  · rw [if_neg hd]
    have hne : ((seedRow s.next_section_id d).name == n) = false := by
      by_cases he : d.name = n
      · subst he
        exact absurd h hd
      · simpa [seedRow] using he
    simp [List.filter_append, hne]

/-- Fold version of the filter preservation. -/
theorem filter_seedAll (ds : List SectionSeed) (s : DBState) (n : String)
    (h : hasSectionNamed s.sections n = true) :
    (ds.foldl insertOrIgnoreSection s).sections.filter (fun x => x.name == n)
      = s.sections.filter (fun x => x.name == n) := by
  induction ds generalizing s with
  | nil => rfl
  | cons d ds ih =>
    rw [List.foldl_cons,
      ih (insertOrIgnoreSection s d) (hasSectionNamed_insertOrIgnore_mono s d n h),
      filter_insertOrIgnore s d n h]

/-- C9: the startup seed is idempotent keyed by the unique section name: for
a store already holding a row for a name, re-running the seed inserts no row
for that name and changes no attribute of it (the rows carrying the name are
exactly the same), and running the seed twice equals running it once. -/
theorem seed_idempotent_C9 (s : DBState) (n : String)
    (h : hasSectionNamed s.sections n = true) :
    (insertDefaultSections s).sections.filter (fun x => x.name == n)
        = s.sections.filter (fun x => x.name == n)
    ∧ insertDefaultSections (insertDefaultSections s) = insertDefaultSections s := by
  constructor
  · exact filter_seedAll defaultSectionSeeds s n h
  · exact seedAll_noop defaultSectionSeeds (insertDefaultSections s)
      (fun d hd => hasSectionNamed_seedAll_self defaultSectionSeeds s d hd)

/-- Witness for C9: the already-seeded store and the name Nursery. -/
theorem seed_idempotent_C9_witness :
    hasSectionNamed seededDB.sections "Nursery" = true
    ∧ ((insertDefaultSections seededDB).sections.filter (fun x => x.name == "Nursery")
          = seededDB.sections.filter (fun x => x.name == "Nursery")
      ∧ insertDefaultSections (insertDefaultSections seededDB)
          = insertDefaultSections seededDB) :=
  ⟨by decide, seed_idempotent_C9 seededDB "Nursery" (by decide)⟩

/-- The UPDATE of the mark-as-read branch rewrites exactly the rows carrying
the id, so looking the id up afterwards yields the first match with its
status and updated_at overwritten. -/
theorem find?_markRead (l : List ContactMessage) (idv now : Nat)
    (m : ContactMessage) (h : l.find? (fun x => x.id == idv) = some m) :
    (l.map (fun m2 =>
        if m2.id == idv then { m2 with status := "read", updated_at := now }
        else m2)).find? (fun x => x.id == idv)
      = some { m with status := "read", updated_at := now } := by
  induction l with
  | nil => simp at h
  | cons y ys ih =>
    by_cases hy : (y.id == idv) = true
    · have hfind : List.find? (fun x => x.id == idv) (y :: ys) = some y :=
        List.find?_cons_of_pos ys hy
      rw [hfind] at h
      have hm : y = m := by injection h
      rw [← hm]
      rw [List.map_cons, if_pos hy]
      have hbump : (({ y with status := "read", updated_at := now }
          : ContactMessage).id == idv) = true := by simpa using hy
      exact List.find?_cons_of_pos _ hbump
    · have hfind : List.find? (fun x => x.id == idv) (y :: ys)
          = List.find? (fun x => x.id == idv) ys :=
        List.find?_cons_of_neg ys (by simpa using hy)
      rw [hfind] at h
      rw [List.map_cons, if_neg hy]
      have hfind2 : List.find? (fun x => x.id == idv)
            (y :: (ys.map (fun m2 =>
              if m2.id == idv then { m2 with status := "read", updated_at := now }
              else m2)))
          = List.find? (fun x => x.id == idv)
            (ys.map (fun m2 =>
              if m2.id == idv then { m2 with status := "read", updated_at := now }
              else m2)) :=
        List.find?_cons_of_neg _ (by simpa using hy)
      rw [hfind2]
      exact ih h

/-- Rows not carrying the id are untouched by the mark-as-read UPDATE. -/
theorem mem_markRead_frame (l : List ContactMessage) (idv now : Nat)
    (m2 : ContactMessage) (hmem : m2 ∈ l) (hid : (m2.id == idv) = false) :
    m2 ∈ l.map (fun x =>
        if x.id == idv then { x with status := "read", updated_at := now }
        else x) := by
  have h := List.mem_map_of_mem (fun x : ContactMessage =>
    if x.id == idv then { x with status := "read", updated_at := now }
    else x) hmem
  simpa [hid] using h

/-- C10: fetching a contact message by id is a pure read only when the
message is not unread: an unread message has its stored status set to read
and its updated_at refreshed before the handler returns it (already relabelled
read), every row with a different id staying put; a message whose status is
anything else (read or replied) is returned with the store exactly
unchanged. -/
theorem contact_fetch_marks_read_C10 (s : DBState) (now idv : Nat)
    (m : ContactMessage)
    (h : s.contact_messages.find? (fun x => x.id == idv) = some m) :
    (m.status = "unread" →
        (getContactMessage s now idv).2 = .ok { m with status := "read" }
      ∧ (getContactMessage s now idv).1.contact_messages.find?
            (fun x => x.id == idv)
          = some { m with status := "read", updated_at := now }
      ∧ (∀ m2 ∈ s.contact_messages, (m2.id == idv) = false →
          m2 ∈ (getContactMessage s now idv).1.contact_messages)
      ∧ (getContactMessage s now idv).1.students = s.students
      ∧ (getContactMessage s now idv).1.sections = s.sections)
    ∧ (m.status ≠ "unread" → getContactMessage s now idv = (s, .ok m)) := by
  unfold getContactMessage
  simp only [h]
  constructor
  · intro hu
    rw [if_pos (by simpa using hu)]
    exact ⟨rfl, find?_markRead s.contact_messages idv now m h,
      fun m2 hmem hid => mem_markRead_frame s.contact_messages idv now m2 hmem hid,
      rfl, rfl⟩
  · intro hu
    rw [if_neg (by simpa using hu)]

/-- A store with a single unread contact message. -/
def contactDB : DBState :=
  { emptyDB with contact_messages :=
      [{ id := 1, name := "Ali Bello", email := "ali@example.com", phone := none,
         subject := "Admission enquiry",
         message := "Please tell me about admission requirements.",
         status := "unread", created_at := 0, updated_at := 0 }] }

/-- Witness for C10: fetching the unread message with clock 5. -/
theorem contact_fetch_marks_read_C10_witness :
    contactDB.contact_messages.find? (fun x => x.id == 1)
        = some { id := 1, name := "Ali Bello", email := "ali@example.com",
                 phone := none, subject := "Admission enquiry",
                 message := "Please tell me about admission requirements.",
                 status := "unread", created_at := 0, updated_at := 0 }
    ∧ (({ id := 1, name := "Ali Bello", email := "ali@example.com",
          phone := none, subject := "Admission enquiry",
          message := "Please tell me about admission requirements.",
          status := "unread", created_at := 0, updated_at := 0 } : ContactMessage).status
          = "unread" →
        (getContactMessage contactDB 5 1).2
            = .ok { id := 1, name := "Ali Bello", email := "ali@example.com",
                    phone := none, subject := "Admission enquiry",
                    message := "Please tell me about admission requirements.",
                    status := "read", created_at := 0, updated_at := 0 }
      ∧ (getContactMessage contactDB 5 1).1.contact_messages.find?
            (fun x => x.id == 1)
          = some { id := 1, name := "Ali Bello", email := "ali@example.com",
                   phone := none, subject := "Admission enquiry",
                   message := "Please tell me about admission requirements.",
                   status := "read", created_at := 0, updated_at := 5 }
      ∧ (∀ m2 ∈ contactDB.contact_messages, (m2.id == 1) = false →
          m2 ∈ (getContactMessage contactDB 5 1).1.contact_messages)
      ∧ (getContactMessage contactDB 5 1).1.students = contactDB.students
      ∧ (getContactMessage contactDB 5 1).1.sections = contactDB.sections) :=
  ⟨by decide,
   (contact_fetch_marks_read_C10 contactDB 5 1
      { id := 1, name := "Ali Bello", email := "ali@example.com", phone := none,
        subject := "Admission enquiry",
        message := "Please tell me about admission requirements.",
        status := "unread", created_at := 0, updated_at := 0 }
      (by decide)).1⟩

end MBU
